import Mathlib

/-!
# TILDE: the instrumented node wrapper

A shallow embedding of `tilde::TildeNode` (`src/tilde/include/tilde/tilde_node.hpp`):
the callback that `create_tilde_subscription` installs in front of the user callback,
and `create_tilde_publisher` with its registry `tilde_pubs_`.

Objects held through `std::shared_ptr` live in an explicit heap (a list); a pointer is
the index of the object in that heap.  The node clock and the steady clock are inputs:
every delivery carries the two clock readings taken by the wrapper.  The `tracepoint`
calls are fire-and-forget emissions to an external tracing sink and leave no trace in
the node; they are not part of the state.
-/

namespace tilde

/-! ## Time -/

/-- The clock kinds of `rcl_clock_type_t` that a node clock or the steady clock can have. -/
inductive ClockType
  | RCL_ROS_TIME
  | RCL_SYSTEM_TIME
  | RCL_STEADY_TIME
  deriving DecidableEq, Repr

/-- An `rclcpp::Time`: a count of nanoseconds together with the kind of clock it was read from. -/
structure Time where
  nanoseconds : Int
  clock_type : ClockType
  deriving DecidableEq, Repr

/-- The constructor `rclcpp::Time(seconds, nanoseconds, clock_type)`. -/
def Time.of_sec_nsec (seconds nanoseconds : Nat) (clock_type : ClockType) : Time :=
  { nanoseconds := (seconds : Int) * 1000000000 + (nanoseconds : Int), clock_type := clock_type }

/-- The default constructed `rclcpp::Time()`: zero nanoseconds of system time. -/
def Time.zero : Time :=
  { nanoseconds := 0, clock_type := ClockType.RCL_SYSTEM_TIME }

/-- A `builtin_interfaces::msg::Time`, the type of `header.stamp`, as far as `rclcpp::Time`
accepts it: the seconds are not negative.  The stamps as they arrive, with signed seconds, are
`RawStamp` below. -/
structure Stamp where
  sec : Nat
  nanosec : Nat
  deriving DecidableEq, Repr

/-! ## Messages and the record built for each of them -/

/-- A message of type `MessageT` whose header stamp, if it has one, `rclcpp::Time` accepts.
`header_stamp` is `none` for a message type without a `header` member and `some header.stamp`
for one that has it; `data` stands for the rest of the payload.  The messages as they arrive
are `RawMsg` below. -/
structure Msg where
  header_stamp : Option Stamp
  data : Nat
  deriving DecidableEq, Repr

/-- Modelled from the spec: the class `InputInfo` is declared in `tilde_publisher.hpp`, which
is not among the sources.  It holds the wall-clock receipt time, the steady-clock receipt time,
the optional embedded timestamp and the flag marking whether that timestamp was present. -/
structure InputInfo where
  sub_time : Time
  sub_time_steady : Time
  has_header_stamp : Bool
  header_stamp : Time
  deriving DecidableEq, Repr

/-- Modelled from the spec: the value `std::make_shared<InputInfo>()` starts from.  The embedded
timestamp is optional, so a fresh record has none: the flag is off. -/
def InputInfo.fresh : InputInfo :=
  { sub_time := Time.zero
    sub_time_steady := Time.zero
    has_header_stamp := false
    header_stamp := Time.zero }

/-- Modelled from the spec: `Process<MessageT>::get_timestamp_from_const` is defined in
`tilde_publisher.hpp`, which is not among the sources.  It extracts the embedded timestamp of
the message when the message type carries one, read on the clock kind of `t`; a payload without
one gives back the caller-supplied `t`. -/
def get_timestamp_from_const (t : Time) (msg : Msg) : Time :=
  match msg.header_stamp with
  | none => t
  | some stamp => Time.of_sec_nsec stamp.sec stamp.nanosec t.clock_type

/-! ## Publisher wrappers -/

/-- The part of `rclcpp::QoS` that the node wrapper sets itself: the queue depth. -/
structure QoS where
  depth : Nat
  deriving DecidableEq, Repr

/-- An `rclcpp::Publisher` as the node wrapper sees it: the topic name `create_publisher` was
called with and the quality of service. -/
structure Publisher where
  topic_name : String
  qos : QoS
  deriving DecidableEq, Repr

/-- The method `get_topic_name()` of a publisher: the name it was created with, resolved in the
namespace of the node.  Name resolution belongs to the transport and is a parameter. -/
def Publisher.get_topic_name (resolve : String → String) (p : Publisher) : String :=
  resolve p.topic_name

/-- A call the node wrapper makes on a publisher wrapper. -/
inductive PubCall
  | set_implicit_input_info (sub_topic : String) (p : InputInfo)
  | set_explicit_subtime (sub_topic : String) (p : InputInfo)
  deriving DecidableEq, Repr

/-- A `TildePublisher` object.  Its class body is in `tilde_publisher.hpp`, which is not among
the sources; the object is represented by the arguments it was constructed with and by the
calls it has received from the node wrapper since, oldest first. -/
structure TildePublisher where
  info_pub : Publisher
  pub : Publisher
  node_fqn : String
  clock : ClockType
  enable : Bool
  calls : List PubCall
  deriving DecidableEq, Repr

/-- The call `tp->set_implicit_input_info(sub_topic, p)`. -/
def TildePublisher.set_implicit_input_info (tp : TildePublisher) (sub_topic : String)
    (p : InputInfo) : TildePublisher :=
  { tp with calls := tp.calls ++ [PubCall.set_implicit_input_info sub_topic p] }

/-- The call `tp->set_explicit_subtime(sub_topic, p)`. -/
def TildePublisher.set_explicit_subtime (tp : TildePublisher) (sub_topic : String)
    (p : InputInfo) : TildePublisher :=
  { tp with calls := tp.calls ++ [PubCall.set_explicit_subtime sub_topic p] }

/-- Modelled from the spec: the InputState table of a publisher wrapper, which lives in
`tilde_publisher.hpp` (not among the sources).  There is at most one InputState per topic and
a new one overwrites the previous one unconditionally, so the InputState for `sub_topic` is the
record of the latest `set_implicit_input_info` call for that topic, and there is none before
the first such call. -/
def TildePublisher.input_info (tp : TildePublisher) (sub_topic : String) : Option InputInfo :=
  tp.calls.foldl
    (fun acc c =>
      match c with
      | PubCall.set_implicit_input_info t p => if t = sub_topic then some p else acc
      | PubCall.set_explicit_subtime _ _ => acc)
    none

/-- The records a publisher wrapper has been offered for explicit correlation on `sub_topic`,
oldest first. -/
def TildePublisher.explicit_offers (tp : TildePublisher) (sub_topic : String) : List InputInfo :=
  tp.calls.filterMap
    (fun c =>
      match c with
      | PubCall.set_explicit_subtime t p => if t = sub_topic then some p else none
      | PubCall.set_implicit_input_info _ _ => none)

/-! ## The node -/

/-- The state of a `TildeNode`.

* `publishers`: the transport publishers created so far through `create_publisher`, in order;
* `heap`: the `TildePublisher` objects made by `std::make_shared`, a pointer being an index;
* `tilde_pubs_`: the registry `std::map<std::string, std::shared_ptr<TildePublisherBase>>`,
  a list of (key, pointer) pairs.  The order of the pairs is of no consequence: the only loop
  over the registry calls each wrapper on its own;
* `enable_tilde`: whether instrumentation is on. -/
structure TildeNode where
  fully_qualified_name : String
  clock_type : ClockType
  publishers : List Publisher
  heap : List TildePublisher
  tilde_pubs_ : List (String × Nat)
  enable_tilde : Bool
  deriving DecidableEq, Repr

/-- A node right after construction: no publisher, no wrapper, an empty registry. -/
def TildeNode.create (fully_qualified_name : String) (clock_type : ClockType)
    (enable_tilde : Bool) : TildeNode :=
  { fully_qualified_name := fully_qualified_name
    clock_type := clock_type
    publishers := []
    heap := []
    tilde_pubs_ := []
    enable_tilde := enable_tilde }

/-- The assignment `m[k] = v` of `std::map`: the pair for `k`, if any, is replaced. -/
def map_assign (m : List (String × Nat)) (k : String) (v : Nat) : List (String × Nat) :=
  (k, v) :: m.filter (fun e => decide (e.1 ≠ k))

/-- The lookup `m.find(k)` of `std::map`. -/
def map_find (m : List (String × Nat)) (k : String) : Option Nat :=
  (m.find? (fun e => decide (e.1 = k))).map Prod.snd

/-- The fixed suffix of the companion topic. -/
def info_suffix : String := "/info/pub"

/-- The lines 109-155 of `main_topic_callback`: read both clocks, extract the embedded
timestamp with the sentinel `t` as fallback, and fill in a fresh `InputInfo`.  The
`if constexpr` chain only chooses how the payload is reached from the shape of the argument
(reference, unique or shared pointer); every branch makes the same call. -/
def prepare_input_info (node : TildeNode) (now_ns steady_ns : Int) (msg : Msg) : InputInfo :=
  let subtime : Time := { nanoseconds := now_ns, clock_type := node.clock_type }
  let subtime_steady : Time :=
    { nanoseconds := steady_ns, clock_type := ClockType.RCL_STEADY_TIME }
  let t : Time := Time.of_sec_nsec 0 100 node.clock_type
  let header_stamp : Time := get_timestamp_from_const t msg
  let input_info : InputInfo :=
    { InputInfo.fresh with sub_time := subtime, sub_time_steady := subtime_steady }
  if header_stamp ≠ t then
    { input_info with has_header_stamp := true, header_stamp := header_stamp }
  else
    input_info

/-- The body of the loop over `tilde_pubs_` (lines 160-163), for one wrapper `tp`. -/
def offer_input_info (resolved_topic_name : String) (input_info : InputInfo)
    (tp : TildePublisher) : TildePublisher :=
  let tp1 := tp.set_implicit_input_info resolved_topic_name input_info
  if input_info.has_header_stamp then
    tp1.set_explicit_subtime resolved_topic_name input_info
  else
    tp1

/-- The lambda `main_topic_callback` of `create_tilde_subscription`.  It runs on the node and
on the state `α` of the application; the user callback is handed the message and sees the node
as the wrapper left it. -/
def main_topic_callback {α : Type} (resolved_topic_name : String)
    (callback : Msg → TildeNode → α → α) (now_ns steady_ns : Int) (msg : Msg)
    (w : TildeNode × α) : TildeNode × α :=
  let node := w.1
  let node1 :=
    if node.enable_tilde then
      let input_info := prepare_input_info node now_ns steady_ns msg
      { node with
        heap := node.tilde_pubs_.foldl
          (fun heap e => heap.modify (offer_input_info resolved_topic_name input_info) e.2)
          node.heap }
    else
      node
  -- finally, call original function
  (node1, callback msg node1 w.2)

/-- The method `create_tilde_subscription`: the topic name is resolved once and the callback
handed to `create_subscription` is `main_topic_callback`.  The result is that installed
callback, a function of the clock readings and of the inbound message. -/
def create_tilde_subscription {α : Type} (resolve : String → String) (topic_name : String)
    (callback : Msg → TildeNode → α → α) :
    Int → Int → Msg → TildeNode × α → TildeNode × α :=
  let resolved_topic_name := resolve topic_name
  main_topic_callback resolved_topic_name callback

/-- The method `create_tilde_publisher`: returns the node afterwards and the pointer to the
new wrapper. -/
def create_tilde_publisher (resolve : String → String) (topic_name : String) (qos : QoS)
    (node : TildeNode) : TildeNode × Nat :=
  let pub : Publisher := { topic_name := topic_name, qos := qos }
  let info_topic := pub.get_topic_name resolve ++ info_suffix
  let info_pub : Publisher := { topic_name := info_topic, qos := { depth := 1 } }
  let tilde_pub : TildePublisher :=
    { info_pub := info_pub
      pub := pub
      node_fqn := node.fully_qualified_name
      clock := node.clock_type
      enable := node.enable_tilde
      calls := [] }
  let ptr := node.heap.length
  ({ node with
      publishers := node.publishers ++ [pub, info_pub]
      heap := node.heap ++ [tilde_pub]
      tilde_pubs_ := map_assign node.tilde_pubs_ info_topic ptr },
    ptr)

/-! ## Sequences of events on one node -/

/-- What happens to a node over time: a publisher wrapper is created, or a message arrives on
a subscription made by `create_tilde_subscription` for `topic_name` with `callback`. -/
inductive Op (α : Type)
  | create_tilde_publisher (topic_name : String) (qos : QoS)
  | inbound (topic_name : String) (callback : Msg → TildeNode → α → α)
      (now_ns steady_ns : Int) (msg : Msg)

/-- One event. -/
def step {α : Type} (resolve : String → String) (w : TildeNode × α) (op : Op α) :
    TildeNode × α :=
  match op with
  | Op.create_tilde_publisher topic_name qos =>
    ((create_tilde_publisher resolve topic_name qos w.1).1, w.2)
  | Op.inbound topic_name callback now_ns steady_ns msg =>
    create_tilde_subscription resolve topic_name callback now_ns steady_ns msg w

/-- A sequence of events, in order. -/
def run {α : Type} (resolve : String → String) (w : TildeNode × α) (ops : List (Op α)) :
    TildeNode × α :=
  ops.foldl (step resolve) w

/-- Whether an event is the arrival of a message. -/
def Op.is_inbound {α : Type} : Op α → Bool
  | Op.create_tilde_publisher _ _ => false
  | Op.inbound _ _ _ _ _ => true

/-- Whether an event creates a publisher wrapper whose companion topic is `info_topic`. -/
def Op.creates {α : Type} (resolve : String → String) (info_topic : String) : Op α → Bool
  | Op.create_tilde_publisher topic_name _ =>
    decide (resolve topic_name ++ info_suffix = info_topic)
  | Op.inbound _ _ _ _ _ => false

/-- The registry is well formed: one pair per key, and every pair points to a wrapper in the
heap whose companion publisher is on the key. -/
def TildeNode.wf (node : TildeNode) : Prop :=
  (node.tilde_pubs_.map Prod.fst).Nodup ∧
    ∀ e ∈ node.tilde_pubs_,
      (node.heap[e.2]?).map (fun tp => tp.info_pub.topic_name) = some e.1

/-- Well-formedness of the registry can be checked by computation. -/
instance TildeNode.decidable_wf (node : TildeNode) : Decidable node.wf := by
  unfold TildeNode.wf
  exact inferInstance

/-! ## Messages as they arrive

The header stamp of a message is a `builtin_interfaces::msg::Time`, whose `sec` is a signed
32-bit integer.  The instrumentation block turns it into an `rclcpp::Time`, and that
conversion throws for a negative `sec`.  A thrown exception is the result `none`. -/

/-- A `builtin_interfaces::msg::Time` as it arrives: `sec` is signed. -/
structure RawStamp where
  sec : Int
  nanosec : Nat
  deriving DecidableEq, Repr

/-- A message of type `MessageT` as it arrives. -/
structure RawMsg where
  header_stamp : Option RawStamp
  data : Nat
  deriving DecidableEq, Repr

/-- The constructor `rclcpp::Time(stamp, clock_type)` from a `builtin_interfaces::msg::Time`:
it throws `std::runtime_error` for a negative `sec`. -/
def RawStamp.to_time (stamp : RawStamp) (clock_type : ClockType) : Option Time :=
  if stamp.sec < 0 then
    none
  else
    some { nanoseconds := stamp.sec * 1000000000 + (stamp.nanosec : Int)
           clock_type := clock_type }

/-- Modelled from the spec: `Process<MessageT>::get_timestamp_from_const` (in
`tilde_publisher.hpp`, not among the sources) on a message as it arrives.  It extracts the
embedded timestamp when the message type carries one, by constructing an `rclcpp::Time` from
`header.stamp` on the clock kind of `t`, which throws for a negative `sec`; a payload without
one gives back the caller-supplied `t`. -/
def get_timestamp_from_const_raw (t : Time) (msg : RawMsg) : Option Time :=
  match msg.header_stamp with
  | none => some t
  | some stamp => stamp.to_time t.clock_type

/-- The lines 109-155 of `main_topic_callback` on a message as it arrives: as
`prepare_input_info`, except that the extraction of the embedded timestamp can throw. -/
def prepare_input_info_raw (node : TildeNode) (now_ns steady_ns : Int) (msg : RawMsg) :
    Option InputInfo :=
  let subtime : Time := { nanoseconds := now_ns, clock_type := node.clock_type }
  let subtime_steady : Time :=
    { nanoseconds := steady_ns, clock_type := ClockType.RCL_STEADY_TIME }
  let t : Time := Time.of_sec_nsec 0 100 node.clock_type
  match get_timestamp_from_const_raw t msg with
  | none => none
  | some header_stamp =>
    let input_info : InputInfo :=
      { InputInfo.fresh with sub_time := subtime, sub_time_steady := subtime_steady }
    if header_stamp ≠ t then
      some { input_info with has_header_stamp := true, header_stamp := header_stamp }
    else
      some input_info

/-- The lambda `main_topic_callback` of `create_tilde_subscription` on a message as it
arrives.  Nothing in the lambda catches an exception: when the instrumentation block throws,
the exception leaves the lambda and the call of the user callback on line 168 is not reached.
With the enable flag off the block is skipped and the stamp is never looked at. -/
def main_topic_callback_raw {α : Type} (resolved_topic_name : String)
    (callback : RawMsg → TildeNode → α → α) (now_ns steady_ns : Int) (msg : RawMsg)
    (w : TildeNode × α) : Option (TildeNode × α) :=
  let node := w.1
  if node.enable_tilde then
    match prepare_input_info_raw node now_ns steady_ns msg with
    | none => none
    | some input_info =>
      let node1 :=
        { node with
          heap := node.tilde_pubs_.foldl
            (fun heap e => heap.modify (offer_input_info resolved_topic_name input_info) e.2)
            node.heap }
      -- finally, call original function
      some (node1, callback msg node1 w.2)
  else
    -- finally, call original function
    some (node, callback msg node w.2)

/-- The message with its header stamp converted, when the conversion accepts it. -/
def RawMsg.accepted (msg : RawMsg) : Option Msg :=
  match msg.header_stamp with
  | none => some { header_stamp := none, data := msg.data }
  | some stamp =>
    if stamp.sec < 0 then
      none
    else
      some { header_stamp := some { sec := stamp.sec.toNat, nanosec := stamp.nanosec }
             data := msg.data }

/-- Name resolution for names that are already fully qualified: they resolve to themselves. -/
def resolve_absolute (topic_name : String) : String := topic_name

/-- A user callback that leaves the application state alone. -/
def idle_callback (_msg : Msg) (_node : TildeNode) (u : Unit) : Unit := u

/-- The node of the sample publisher: instrumentation on, one wrapper on `/out` with a queue
of depth 7. -/
def sample_node : TildeNode :=
  (create_tilde_publisher resolve_absolute "/out" { depth := 7 }
    (TildeNode.create "/talker" ClockType.RCL_ROS_TIME true)).1

/-- The same node with instrumentation off. -/
def sample_node_disabled : TildeNode :=
  (create_tilde_publisher resolve_absolute "/out" { depth := 7 }
    (TildeNode.create "/talker" ClockType.RCL_ROS_TIME false)).1

/-- A message without a header. -/
def plain_msg : Msg := { header_stamp := none, data := 42 }

/-- A message whose header stamp is 3 s / 0 ns. -/
def stamped_msg : Msg := { header_stamp := some { sec := 3, nanosec := 0 }, data := 42 }

/-- A message whose header stamp is 0 s / 100 ns. -/
def sentinel_msg : Msg := { header_stamp := some { sec := 0, nanosec := 100 }, data := 42 }

/-- The sample node after a stamped message has arrived on `/in`. -/
def sample_node_after_inbound : TildeNode :=
  (create_tilde_subscription resolve_absolute "/in" idle_callback 5 6 stamped_msg
    (sample_node, ())).1

/-- The sample node after that message, with a second wrapper created on `/out2` afterwards. -/
def sample_node_late_wrapper : TildeNode :=
  (create_tilde_publisher resolve_absolute "/out2" { depth := 7 } sample_node_after_inbound).1

end tilde

namespace tilde

/-! ## The registry as a map -/

theorem mem_map_assign (m : List (String × Nat)) (k : String) (v : Nat) (e : String × Nat) :
    e ∈ map_assign m k v ↔ e = (k, v) ∨ (e ∈ m ∧ e.1 ≠ k) := by
  simp [map_assign, List.mem_filter]

theorem map_find_assign_eq (m : List (String × Nat)) (k : String) (v : Nat) :
    map_find (map_assign m k v) k = some v := by
  simp [map_find, map_assign, List.find?_cons]

theorem find_filter_ne (m : List (String × Nat)) (k k2 : String) (h : k2 ≠ k) :
    (m.filter (fun e => decide (e.1 ≠ k))).find? (fun e => decide (e.1 = k2)) =
      m.find? (fun e => decide (e.1 = k2)) := by
  rw [List.find?_filter]
  congr 1
  funext a
  by_cases h2 : a.1 = k2
  · have h3 : a.1 ≠ k := fun h4 => h (h2.symm.trans h4)
    simp [h2, h3, h]
  · simp [h2]

theorem map_find_assign_ne (m : List (String × Nat)) (k k2 : String) (v : Nat) (h : k2 ≠ k) :
    map_find (map_assign m k v) k2 = map_find m k2 := by
  have hne : ¬ (k = k2) := fun h2 => h h2.symm
  unfold map_find map_assign
  rw [List.find?_cons]
  simp only [hne, decide_False]
  rw [find_filter_ne m k k2 h]

theorem keys_nodup_map_assign (m : List (String × Nat)) (k : String) (v : Nat)
    (h : (m.map Prod.fst).Nodup) : ((map_assign m k v).map Prod.fst).Nodup := by
  simp only [map_assign, List.map_cons, List.nodup_cons]
  constructor
  · simp [List.mem_map, List.mem_filter]
  · exact h.sublist ((List.filter_sublist m).map Prod.fst)

theorem map_find_eq_some_of_mem (m : List (String × Nat)) (h : (m.map Prod.fst).Nodup)
    (e : String × Nat) (he : e ∈ m) : map_find m e.1 = some e.2 := by
  induction m with
  | nil => cases he
  | cons x rest ih =>
    simp only [List.map_cons, List.nodup_cons] at h
    rcases List.mem_cons.mp he with rfl | hin
    · simp [map_find, List.find?_cons]
    · have hne : x.1 ≠ e.1 := by
        intro hx
        exact h.1 (hx ▸ List.mem_map_of_mem Prod.fst hin)
      have := ih h.2 hin
      simpa [map_find, List.find?_cons, hne] using this

theorem mem_of_map_find_eq_some (m : List (String × Nat)) (k : String) (v : Nat)
    (h : map_find m k = some v) : (k, v) ∈ m := by
  unfold map_find at h
  cases hf : m.find? (fun e => decide (e.1 = k)) with
  | none => rw [hf] at h; cases h
  | some e =>
    rw [hf] at h
    have hv : e.2 = v := Option.some.inj h
    have hmem := List.mem_of_find?_eq_some hf
    have hk := List.find?_some hf
    simp only [decide_eq_true_eq] at hk
    have : e = (k, v) := Prod.ext hk hv
    exact this ▸ hmem

/-! ## The companion topic name -/

theorem append_suffix_injective (a b s : String) (h : a ++ s = b ++ s) : a = b := by
  have hd : (a ++ s).data = (b ++ s).data := by rw [h]
  simp only [String.data_append] at hd
  exact String.ext (List.append_cancel_right hd)

/-! ## The loop over the registry -/

theorem getElem?_foldl_modify (f : TildePublisher → TildePublisher) :
    ∀ (m : List (String × Nat)) (heap : List TildePublisher) (i : Nat),
      (m.map Prod.snd).Nodup →
      (m.foldl (fun heap e => heap.modify f e.2) heap)[i]? =
        if i ∈ m.map Prod.snd then (heap[i]?).map f else heap[i]? := by
  intro m
  induction m with
  | nil => intro heap i _; simp
  | cons e rest ih =>
    intro heap i hnd
    simp only [List.map_cons, List.nodup_cons] at hnd
    simp only [List.foldl_cons, List.map_cons, List.mem_cons]
    rw [ih _ i hnd.2, List.getElem?_modify]
    by_cases h1 : i = e.2
    · subst h1
      simp [hnd.1]
    · have h2 : ¬ (e.2 = i) := fun h => h1 h.symm
      by_cases h3 : i ∈ rest.map Prod.snd
      · simp [h1, h2, h3]
      · simp [h1, h2, h3]

theorem length_foldl_modify (f : TildePublisher → TildePublisher) :
    ∀ (m : List (String × Nat)) (heap : List TildePublisher),
      (m.foldl (fun heap e => heap.modify f e.2) heap).length = heap.length := by
  intro m
  induction m with
  | nil => intro heap; rfl
  | cons e rest ih => intro heap; simp [List.foldl_cons, ih]

theorem wf_ptrs_nodup (node : TildeNode) (h : node.wf) :
    (node.tilde_pubs_.map Prod.snd).Nodup := by
  refine List.Nodup.map_on ?_ (List.Nodup.of_map Prod.fst h.1)
  intro x hx y hy hxy
  have h1 := h.2 x hx
  have h2 := h.2 y hy
  rw [hxy, h2] at h1
  exact Prod.ext (Option.some.inj h1).symm hxy

theorem getElem?_foldl_modify_of_not_mem (f : TildePublisher → TildePublisher) :
    ∀ (m : List (String × Nat)) (heap : List TildePublisher) (i : Nat),
      (∀ e ∈ m, e.2 ≠ i) →
      (m.foldl (fun heap e => heap.modify f e.2) heap)[i]? = heap[i]? := by
  intro m
  induction m with
  | nil => intro heap i _; rfl
  | cons e rest ih =>
    intro heap i hni
    simp only [List.foldl_cons]
    rw [ih _ i (fun x hx => hni x (List.mem_cons_of_mem _ hx)),
      List.getElem?_modify_ne _ _ (hni e (List.mem_cons_self _ _))]

/-! ## What a wrapper holds after it has been offered a record -/

theorem input_info_offer (T : String) (p : InputInfo) (tp : TildePublisher) :
    (offer_input_info T p tp).input_info T = some p := by
  unfold offer_input_info
  by_cases h : p.has_header_stamp = true
  · simp [h, TildePublisher.input_info, TildePublisher.set_implicit_input_info,
      TildePublisher.set_explicit_subtime, List.foldl_append]
  · simp [h, TildePublisher.input_info, TildePublisher.set_implicit_input_info,
      List.foldl_append]

theorem calls_offer (T : String) (p : InputInfo) (tp : TildePublisher) :
    (offer_input_info T p tp).calls =
      tp.calls ++ (PubCall.set_implicit_input_info T p ::
        if p.has_header_stamp = true then [PubCall.set_explicit_subtime T p] else []) := by
  unfold offer_input_info
  by_cases h : p.has_header_stamp = true
  · simp [h, TildePublisher.set_implicit_input_info, TildePublisher.set_explicit_subtime]
  · simp [h, TildePublisher.set_implicit_input_info]

theorem info_pub_offer (T : String) (p : InputInfo) (tp : TildePublisher) :
    (offer_input_info T p tp).info_pub = tp.info_pub := by
  unfold offer_input_info
  by_cases h : p.has_header_stamp = true
  · simp [h, TildePublisher.set_implicit_input_info, TildePublisher.set_explicit_subtime]
  · simp [h, TildePublisher.set_implicit_input_info]

/-! ## One inbound message -/

theorem inbound_tilde_pubs {α : Type} (T : String) (callback : Msg → TildeNode → α → α)
    (now_ns steady_ns : Int) (msg : Msg) (w : TildeNode × α) :
    (main_topic_callback T callback now_ns steady_ns msg w).1.tilde_pubs_ = w.1.tilde_pubs_ := by
  unfold main_topic_callback
  by_cases h : w.1.enable_tilde = true <;> simp [h]

theorem inbound_enable_tilde {α : Type} (T : String) (callback : Msg → TildeNode → α → α)
    (now_ns steady_ns : Int) (msg : Msg) (w : TildeNode × α) :
    (main_topic_callback T callback now_ns steady_ns msg w).1.enable_tilde = w.1.enable_tilde := by
  unfold main_topic_callback
  by_cases h : w.1.enable_tilde = true <;> simp [h]

theorem inbound_clock_type {α : Type} (T : String) (callback : Msg → TildeNode → α → α)
    (now_ns steady_ns : Int) (msg : Msg) (w : TildeNode × α) :
    (main_topic_callback T callback now_ns steady_ns msg w).1.clock_type = w.1.clock_type := by
  unfold main_topic_callback
  by_cases h : w.1.enable_tilde = true <;> simp [h]

theorem inbound_publishers {α : Type} (T : String) (callback : Msg → TildeNode → α → α)
    (now_ns steady_ns : Int) (msg : Msg) (w : TildeNode × α) :
    (main_topic_callback T callback now_ns steady_ns msg w).1.publishers = w.1.publishers := by
  unfold main_topic_callback
  by_cases h : w.1.enable_tilde = true <;> simp [h]

theorem inbound_heap_length {α : Type} (T : String) (callback : Msg → TildeNode → α → α)
    (now_ns steady_ns : Int) (msg : Msg) (w : TildeNode × α) :
    (main_topic_callback T callback now_ns steady_ns msg w).1.heap.length = w.1.heap.length := by
  unfold main_topic_callback
  by_cases h : w.1.enable_tilde = true <;> simp [h, length_foldl_modify]

theorem inbound_disabled {α : Type} (T : String) (callback : Msg → TildeNode → α → α)
    (now_ns steady_ns : Int) (msg : Msg) (w : TildeNode × α)
    (h : w.1.enable_tilde = false) :
    main_topic_callback T callback now_ns steady_ns msg w = (w.1, callback msg w.1 w.2) := by
  unfold main_topic_callback
  simp [h]

theorem inbound_heap_enabled {α : Type} (T : String) (callback : Msg → TildeNode → α → α)
    (now_ns steady_ns : Int) (msg : Msg) (w : TildeNode × α)
    (h : w.1.enable_tilde = true) :
    (main_topic_callback T callback now_ns steady_ns msg w).1.heap =
      w.1.tilde_pubs_.foldl
        (fun heap e =>
          heap.modify (offer_input_info T (prepare_input_info w.1 now_ns steady_ns msg)) e.2)
        w.1.heap := by
  unfold main_topic_callback
  simp [h]

theorem inbound_heap_registered {α : Type} (T : String) (callback : Msg → TildeNode → α → α)
    (now_ns steady_ns : Int) (msg : Msg) (w : TildeNode × α)
    (hen : w.1.enable_tilde = true) (hwf : w.1.wf)
    (e : String × Nat) (he : e ∈ w.1.tilde_pubs_) :
    ∃ tp, w.1.heap[e.2]? = some tp ∧
      (main_topic_callback T callback now_ns steady_ns msg w).1.heap[e.2]? =
        some (offer_input_info T (prepare_input_info w.1 now_ns steady_ns msg) tp) := by
  have hmem : e.2 ∈ w.1.tilde_pubs_.map Prod.snd := List.mem_map_of_mem Prod.snd he
  have hsome := hwf.2 e he
  cases hget : w.1.heap[e.2]? with
  | none => rw [hget] at hsome; cases hsome
  | some tp =>
    refine ⟨tp, rfl, ?_⟩
    rw [inbound_heap_enabled T callback now_ns steady_ns msg w hen,
      getElem?_foldl_modify _ _ _ _ (wf_ptrs_nodup _ hwf), if_pos hmem, hget]
    rfl

theorem inbound_heap_unregistered {α : Type} (T : String) (callback : Msg → TildeNode → α → α)
    (now_ns steady_ns : Int) (msg : Msg) (w : TildeNode × α)
    (i : Nat) (hi : ∀ e ∈ w.1.tilde_pubs_, e.2 ≠ i) :
    (main_topic_callback T callback now_ns steady_ns msg w).1.heap[i]? = w.1.heap[i]? := by
  by_cases hen : w.1.enable_tilde = true
  · rw [inbound_heap_enabled T callback now_ns steady_ns msg w hen,
      getElem?_foldl_modify_of_not_mem _ _ _ _ hi]
  · have hf : w.1.enable_tilde = false := by simpa using hen
    rw [inbound_disabled T callback now_ns steady_ns msg w hf]

theorem inbound_heap_info_pub {α : Type} (T : String) (callback : Msg → TildeNode → α → α)
    (now_ns steady_ns : Int) (msg : Msg) (w : TildeNode × α)
    (i : Nat) :
    ((main_topic_callback T callback now_ns steady_ns msg w).1.heap[i]?).map
        (fun tp => tp.info_pub) =
      (w.1.heap[i]?).map (fun tp => tp.info_pub) := by
  by_cases hen : w.1.enable_tilde = true
  · rw [inbound_heap_enabled T callback now_ns steady_ns msg w hen]
    generalize w.1.heap = heap
    induction w.1.tilde_pubs_ generalizing heap with
    | nil => rfl
    | cons e rest ih =>
      simp only [List.foldl_cons]
      rw [ih, List.getElem?_modify]
      cases heap[i]? with
      | none => rfl
      | some tp =>
        by_cases h2 : e.2 = i
        · simp [h2, info_pub_offer]
        · simp [h2]
  · have hf : w.1.enable_tilde = false := by simpa using hen
    rw [inbound_disabled T callback now_ns steady_ns msg w hf]

theorem inbound_wf {α : Type} (T : String) (callback : Msg → TildeNode → α → α)
    (now_ns steady_ns : Int) (msg : Msg) (w : TildeNode × α)
    (hwf : w.1.wf) :
    (main_topic_callback T callback now_ns steady_ns msg w).1.wf := by
  refine ⟨?_, ?_⟩
  · rw [inbound_tilde_pubs]
    exact hwf.1
  · intro e he
    rw [inbound_tilde_pubs] at he
    have h1 := inbound_heap_info_pub T callback now_ns steady_ns msg w e.2
    have h2 := hwf.2 e he
    have h3 := congrArg (Option.map (fun p : Publisher => p.topic_name)) h1
    simp only [Option.map_map] at h3
    exact h3.trans h2

/-! ## One publisher creation -/

theorem create_ptr (resolve : String → String) (topic_name : String) (qos : QoS)
    (node : TildeNode) :
    (create_tilde_publisher resolve topic_name qos node).2 = node.heap.length :=
  rfl

theorem create_heap (resolve : String → String) (topic_name : String) (qos : QoS)
    (node : TildeNode) :
    (create_tilde_publisher resolve topic_name qos node).1.heap =
      node.heap ++
        [{ info_pub := { topic_name := resolve topic_name ++ info_suffix, qos := { depth := 1 } }
           pub := { topic_name := topic_name, qos := qos }
           node_fqn := node.fully_qualified_name
           clock := node.clock_type
           enable := node.enable_tilde
           calls := [] }] :=
  rfl

theorem create_tilde_pubs (resolve : String → String) (topic_name : String) (qos : QoS)
    (node : TildeNode) :
    (create_tilde_publisher resolve topic_name qos node).1.tilde_pubs_ =
      map_assign node.tilde_pubs_ (resolve topic_name ++ info_suffix) node.heap.length :=
  rfl

theorem create_enable_tilde (resolve : String → String) (topic_name : String) (qos : QoS)
    (node : TildeNode) :
    (create_tilde_publisher resolve topic_name qos node).1.enable_tilde = node.enable_tilde :=
  rfl

theorem create_clock_type (resolve : String → String) (topic_name : String) (qos : QoS)
    (node : TildeNode) :
    (create_tilde_publisher resolve topic_name qos node).1.clock_type = node.clock_type :=
  rfl

theorem create_heap_old (resolve : String → String) (topic_name : String) (qos : QoS)
    (node : TildeNode)
    (i : Nat) (hi : i < node.heap.length) :
    (create_tilde_publisher resolve topic_name qos node).1.heap[i]? = node.heap[i]? := by
  rw [create_heap, List.getElem?_append_left hi]

theorem create_heap_new (resolve : String → String) (topic_name : String) (qos : QoS)
    (node : TildeNode) :
    (create_tilde_publisher resolve topic_name qos node).1.heap[node.heap.length]? =
      some { info_pub :=
               { topic_name := resolve topic_name ++ info_suffix, qos := { depth := 1 } }
             pub := { topic_name := topic_name, qos := qos }
             node_fqn := node.fully_qualified_name
             clock := node.clock_type
             enable := node.enable_tilde
             calls := [] } := by
  rw [create_heap]
  simp

theorem create_wf (resolve : String → String) (topic_name : String) (qos : QoS)
    (node : TildeNode)
    (hwf : node.wf) : (create_tilde_publisher resolve topic_name qos node).1.wf := by
  refine ⟨?_, ?_⟩
  · rw [create_tilde_pubs]
    exact keys_nodup_map_assign _ _ _ hwf.1
  · intro e he
    rw [create_tilde_pubs, mem_map_assign] at he
    rcases he with rfl | ⟨hin, _⟩
    · rw [create_heap_new]
      rfl
    · have h2 := hwf.2 e hin
      have hlt : e.2 < node.heap.length := by
        by_contra hge
        rw [List.getElem?_eq_none (Nat.le_of_not_lt hge)] at h2
        cases h2
      rw [create_heap_old resolve topic_name qos node e.2 hlt]
      exact h2

/-! ## Sequences of events -/

theorem wf_of_fresh_node (fqn : String) (clock_type : ClockType) (enable_tilde : Bool) :
    (TildeNode.create fqn clock_type enable_tilde).wf := by
  refine ⟨List.nodup_nil, ?_⟩
  intro e he
  cases he

theorem run_nil {α : Type} (resolve : String → String) (w : TildeNode × α) :
    run resolve w [] = w :=
  rfl

theorem run_cons {α : Type} (resolve : String → String) (w : TildeNode × α) (op : Op α)
    (ops : List (Op α)) : run resolve w (op :: ops) = run resolve (step resolve w op) ops :=
  rfl

theorem run_append {α : Type} (resolve : String → String) (w : TildeNode × α)
    (ops1 ops2 : List (Op α)) :
    run resolve w (ops1 ++ ops2) = run resolve (run resolve w ops1) ops2 := by
  unfold run
  rw [List.foldl_append]

/-- A property of the state that every event allowed by `ok` preserves holds after every
sequence of allowed events. -/
theorem run_invariant {α : Type} (resolve : String → String) (P : TildeNode × α → Prop)
    (ok : Op α → Prop) (hstep : ∀ w op, ok op → P w → P (step resolve w op)) :
    ∀ (ops : List (Op α)) (w : TildeNode × α), (∀ op ∈ ops, ok op) → P w →
      P (run resolve w ops) := by
  intro ops
  induction ops with
  | nil => intro w _ h; exact h
  | cons op rest ih =>
    intro w hok h
    rw [run_cons]
    exact ih _ (fun o ho => hok o (List.mem_cons_of_mem _ ho))
      (hstep w op (hok op (List.mem_cons_self _ _)) h)

theorem step_wf {α : Type} (resolve : String → String) (w : TildeNode × α) (op : Op α)
    (hwf : w.1.wf) : (step resolve w op).1.wf := by
  cases op with
  | create_tilde_publisher topic_name qos => exact create_wf resolve topic_name qos w.1 hwf
  | inbound topic_name callback now_ns steady_ns msg =>
    exact inbound_wf (resolve topic_name) callback now_ns steady_ns msg w hwf

theorem step_enable_tilde {α : Type} (resolve : String → String) (w : TildeNode × α)
    (op : Op α) : (step resolve w op).1.enable_tilde = w.1.enable_tilde := by
  cases op with
  | create_tilde_publisher topic_name qos => rfl
  | inbound topic_name callback now_ns steady_ns msg =>
    exact inbound_enable_tilde (resolve topic_name) callback now_ns steady_ns msg w

theorem step_clock_type {α : Type} (resolve : String → String) (w : TildeNode × α)
    (op : Op α) : (step resolve w op).1.clock_type = w.1.clock_type := by
  cases op with
  | create_tilde_publisher topic_name qos => rfl
  | inbound topic_name callback now_ns steady_ns msg =>
    exact inbound_clock_type (resolve topic_name) callback now_ns steady_ns msg w

theorem run_wf {α : Type} (resolve : String → String) (ops : List (Op α)) (w : TildeNode × α)
    (hwf : w.1.wf) : (run resolve w ops).1.wf :=
  run_invariant resolve (fun w => w.1.wf) (fun _ => True)
    (fun w op _ h => step_wf resolve w op h) ops w (fun _ _ => trivial) hwf

theorem run_enable_tilde {α : Type} (resolve : String → String) (ops : List (Op α))
    (w : TildeNode × α) : (run resolve w ops).1.enable_tilde = w.1.enable_tilde :=
  run_invariant resolve (fun v => v.1.enable_tilde = w.1.enable_tilde) (fun _ => True)
    (fun v op _ h => (step_enable_tilde resolve v op).trans h) ops w (fun _ _ => trivial) rfl

theorem run_clock_type {α : Type} (resolve : String → String) (ops : List (Op α))
    (w : TildeNode × α) : (run resolve w ops).1.clock_type = w.1.clock_type :=
  run_invariant resolve (fun v => v.1.clock_type = w.1.clock_type) (fun _ => True)
    (fun v op _ h => (step_clock_type resolve v op).trans h) ops w (fun _ _ => trivial) rfl

/-- A wrapper that is in the heap stays where it is, with the companion publisher it was
constructed with, whatever happens to the node afterwards. -/
theorem run_heap_info_pub {α : Type} (resolve : String → String) (ops : List (Op α))
    (w : TildeNode × α) (i : Nat) (hi : i < w.1.heap.length) :
    i < (run resolve w ops).1.heap.length ∧
      ((run resolve w ops).1.heap[i]?).map (fun tp => tp.info_pub) =
        (w.1.heap[i]?).map (fun tp => tp.info_pub) := by
  refine run_invariant resolve
    (fun v => i < v.1.heap.length ∧
      (v.1.heap[i]?).map (fun tp => tp.info_pub) = (w.1.heap[i]?).map (fun tp => tp.info_pub))
    (fun _ => True) ?_ ops w (fun _ _ => trivial) ⟨hi, rfl⟩
  intro v op _ hv
  cases op with
  | create_tilde_publisher topic_name qos =>
    refine ⟨?_, ?_⟩
    · show i < (create_tilde_publisher resolve topic_name qos v.1).1.heap.length
      rw [create_heap]
      simp only [List.length_append, List.length_singleton]
      exact Nat.lt_succ_of_lt hv.1
    · show ((create_tilde_publisher resolve topic_name qos v.1).1.heap[i]?).map _ = _
      rw [create_heap_old resolve topic_name qos v.1 i hv.1]
      exact hv.2
  | inbound topic_name callback now_ns steady_ns msg =>
    refine ⟨?_, ?_⟩
    · show i < (main_topic_callback (resolve topic_name) callback now_ns steady_ns msg
        v).1.heap.length
      rw [inbound_heap_length]
      exact hv.1
    · exact (inbound_heap_info_pub (resolve topic_name) callback now_ns steady_ns msg v
        i).trans hv.2

/-- A wrapper that is in the heap and that no pair of the registry points to is never pointed
to again, and it receives no call any more. -/
theorem run_unregistered {α : Type} (resolve : String → String) (ops : List (Op α))
    (w : TildeNode × α) (i : Nat) (hi : i < w.1.heap.length)
    (hun : ∀ e ∈ w.1.tilde_pubs_, e.2 ≠ i) :
    (∀ e ∈ (run resolve w ops).1.tilde_pubs_, e.2 ≠ i) ∧
      (run resolve w ops).1.heap[i]? = w.1.heap[i]? := by
  have key := run_invariant resolve
    (fun v => i < v.1.heap.length ∧ (∀ e ∈ v.1.tilde_pubs_, e.2 ≠ i) ∧
      v.1.heap[i]? = w.1.heap[i]?)
    (fun _ => True) ?_ ops w (fun _ _ => trivial) ⟨hi, hun, rfl⟩
  · exact key.2
  intro v op _ hv
  cases op with
  | create_tilde_publisher topic_name qos =>
    refine ⟨?_, ?_, ?_⟩
    · show i < (create_tilde_publisher resolve topic_name qos v.1).1.heap.length
      rw [create_heap]
      simp only [List.length_append, List.length_singleton]
      exact Nat.lt_succ_of_lt hv.1
    · intro e he
      change e ∈ (create_tilde_publisher resolve topic_name qos v.1).1.tilde_pubs_ at he
      rw [create_tilde_pubs, mem_map_assign] at he
      rcases he with rfl | ⟨hin, _⟩
      · exact fun h => absurd hv.1 (by simp at h; omega)
      · exact hv.2.1 e hin
    · show (create_tilde_publisher resolve topic_name qos v.1).1.heap[i]? = _
      rw [create_heap_old resolve topic_name qos v.1 i hv.1]
      exact hv.2.2
  | inbound topic_name callback now_ns steady_ns msg =>
    refine ⟨?_, ?_, ?_⟩
    · show i < (main_topic_callback (resolve topic_name) callback now_ns steady_ns msg
        v).1.heap.length
      rw [inbound_heap_length]
      exact hv.1
    · intro e he
      change e ∈ (main_topic_callback (resolve topic_name) callback now_ns steady_ns msg
        v).1.tilde_pubs_ at he
      rw [inbound_tilde_pubs] at he
      exact hv.2.1 e he
    · exact (inbound_heap_unregistered (resolve topic_name) callback now_ns steady_ns msg v i
        hv.2.1).trans hv.2.2

/-- The pair of the registry under a key stays as long as no wrapper is created for the
topic of that key. -/
theorem run_map_find {α : Type} (resolve : String → String) (key : String) (ptr : Nat)
    (ops : List (Op α)) (w : TildeNode × α) (hno : ∀ op ∈ ops, op.creates resolve key = false)
    (hfind : map_find w.1.tilde_pubs_ key = some ptr) :
    map_find (run resolve w ops).1.tilde_pubs_ key = some ptr := by
  refine run_invariant resolve (fun v => map_find v.1.tilde_pubs_ key = some ptr)
    (fun op => op.creates resolve key = false) ?_ ops w hno hfind
  intro v op hop hv
  cases op with
  | create_tilde_publisher topic_name qos =>
    have hne : resolve topic_name ++ info_suffix ≠ key := by
      simpa [Op.creates] using hop
    show map_find (create_tilde_publisher resolve topic_name qos v.1).1.tilde_pubs_ key = _
    rw [create_tilde_pubs, map_find_assign_ne _ _ _ _ (fun h => hne h.symm)]
    exact hv
  | inbound topic_name callback now_ns steady_ns msg =>
    show map_find (main_topic_callback (resolve topic_name) callback now_ns steady_ns msg
      v).1.tilde_pubs_ key = _
    rw [inbound_tilde_pubs]
    exact hv

/-! ## The record built for a message -/

theorem prepare_sub_time (node : TildeNode) (now_ns steady_ns : Int) (msg : Msg) :
    (prepare_input_info node now_ns steady_ns msg).sub_time =
      { nanoseconds := now_ns, clock_type := node.clock_type } := by
  simp only [prepare_input_info]
  split <;> rfl

theorem prepare_sub_time_steady (node : TildeNode) (now_ns steady_ns : Int) (msg : Msg) :
    (prepare_input_info node now_ns steady_ns msg).sub_time_steady =
      { nanoseconds := steady_ns, clock_type := ClockType.RCL_STEADY_TIME } := by
  simp only [prepare_input_info]
  split <;> rfl

theorem of_sec_nsec_eq_sentinel (s : Stamp) (clock_type : ClockType) :
    Time.of_sec_nsec s.sec s.nanosec clock_type = Time.of_sec_nsec 0 100 clock_type ↔
      s = { sec := 0, nanosec := 100 } := by
  cases s with
  | mk sec nanosec =>
    simp only [Time.of_sec_nsec, Time.mk.injEq, Stamp.mk.injEq, and_true]
    constructor
    · intro h
      constructor <;> omega
    · rintro ⟨rfl, rfl⟩
      rfl

theorem prepare_no_header (node : TildeNode) (now_ns steady_ns : Int) (msg : Msg)
    (h : msg.header_stamp = none) :
    (prepare_input_info node now_ns steady_ns msg).has_header_stamp = false := by
  simp [prepare_input_info, get_timestamp_from_const, h, InputInfo.fresh]

theorem sample_node_wf : sample_node.wf :=
  create_wf _ _ _ _ (wf_of_fresh_node _ _ _)

theorem sample_node_disabled_wf : sample_node_disabled.wf :=
  create_wf _ _ _ _ (wf_of_fresh_node _ _ _)

/-! ## The subscription wrapper -/

theorem prepare_input_info_raw_eq (node : TildeNode) (now_ns steady_ns : Int) (msg : RawMsg) :
    prepare_input_info_raw node now_ns steady_ns msg =
      msg.accepted.map (prepare_input_info node now_ns steady_ns) := by
  cases msg with
  | mk header_stamp data =>
    cases header_stamp with
    | none =>
      simp [prepare_input_info_raw, get_timestamp_from_const_raw, RawMsg.accepted,
        prepare_input_info, get_timestamp_from_const]
    | some stamp =>
      by_cases hneg : stamp.sec < 0
      · simp [prepare_input_info_raw, get_timestamp_from_const_raw, RawMsg.accepted,
          RawStamp.to_time, hneg]
      · have hto : ((stamp.sec.toNat : Nat) : Int) = stamp.sec :=
          Int.toNat_of_nonneg (Int.not_lt.mp hneg)
        have ht : Time.of_sec_nsec stamp.sec.toNat stamp.nanosec node.clock_type =
            { nanoseconds := stamp.sec * 1000000000 + (stamp.nanosec : Int)
              clock_type := node.clock_type } := by
          simp only [Time.of_sec_nsec, hto]
        have hc : (Time.of_sec_nsec 0 100 node.clock_type).clock_type = node.clock_type := rfl
        simp only [prepare_input_info_raw, get_timestamp_from_const_raw, RawMsg.accepted,
          RawStamp.to_time, hneg, if_false, Option.map_some', prepare_input_info,
          get_timestamp_from_const, hc, ht]
        split <;> rfl

/-- On a message whose stamp the conversion accepts, the lambda on messages as they arrive is
the lambda `main_topic_callback` on the converted message. -/
theorem main_topic_callback_raw_accepted {α : Type} (T : String)
    (callback : RawMsg → TildeNode → α → α) (now_ns steady_ns : Int) (msg : RawMsg) (m : Msg)
    (w : TildeNode × α) (h : msg.accepted = some m) :
    main_topic_callback_raw T callback now_ns steady_ns msg w =
      some (main_topic_callback T (fun _ => callback msg) now_ns steady_ns m w) := by
  unfold main_topic_callback_raw main_topic_callback
  by_cases hen : w.1.enable_tilde = true
  · simp [hen, prepare_input_info_raw_eq, h]
  · simp [hen]

theorem prepare_header_fields (node : TildeNode) (now_ns steady_ns : Int) (msg : Msg) :
    ((prepare_input_info node now_ns steady_ns msg).has_header_stamp = true ↔
        ∃ s, msg.header_stamp = some s ∧ s ≠ { sec := 0, nanosec := 100 }) ∧
    (prepare_input_info node now_ns steady_ns msg).header_stamp =
      (match msg.header_stamp with
        | some s =>
          if s = { sec := 0, nanosec := 100 } then Time.zero
          else Time.of_sec_nsec s.sec s.nanosec node.clock_type
        | none => Time.zero) := by
  cases hm : msg.header_stamp with
  | none => simp [prepare_input_info, get_timestamp_from_const, hm, InputInfo.fresh]
  | some s =>
    have key := of_sec_nsec_eq_sentinel s node.clock_type
    have hc : (Time.of_sec_nsec 0 100 node.clock_type).clock_type = node.clock_type := rfl
    by_cases hs : s = { sec := 0, nanosec := 100 }
    · have h2 := key.mpr hs
      simp only [prepare_input_info, get_timestamp_from_const, hm, hc, h2, ne_eq,
        not_true_eq_false, if_false, InputInfo.fresh]
      simp [hs]
    · have h2 : ¬ (Time.of_sec_nsec s.sec s.nanosec node.clock_type =
          Time.of_sec_nsec 0 100 node.clock_type) := fun h => hs (key.mp h)
      simp only [prepare_input_info, get_timestamp_from_const, hm, hc, h2, ne_eq,
        not_false_eq_true, if_true, InputInfo.fresh]
      simp [hs]

/-- C2: with instrumentation enabled, the user callback is invoked on the node as the wrapper
left it, and in that node every registered publisher wrapper has already received, as its
latest calls, the record built from the message being delivered, for the resolved topic.
That record is the one of this delivery and of no other: its `sub_time` and `sub_time_steady`
are the two clock readings taken for this message, its flag `has_header_stamp` is on exactly
when this message carries an embedded timestamp other than 0 s / 100 ns, and its
`header_stamp` is then that timestamp. -/
theorem C2_record_precedes_callback {α : Type} (resolve : String → String)
    (topic_name : String) (now_ns steady_ns : Int) (msg : Msg) (node : TildeNode)
    (hen : node.enable_tilde = true) (hwf : node.wf) (e : String × Nat)
    (he : e ∈ node.tilde_pubs_) :
    ∃ node1 : TildeNode,
      (∀ (callback : Msg → TildeNode → α → α) (a : α),
        create_tilde_subscription resolve topic_name callback now_ns steady_ns msg (node, a) =
          (node1, callback msg node1 a)) ∧
      (∃ tp0 tp1, node.heap[e.2]? = some tp0 ∧ node1.heap[e.2]? = some tp1 ∧
        tp1.calls = tp0.calls ++
          (PubCall.set_implicit_input_info (resolve topic_name)
              (prepare_input_info node now_ns steady_ns msg) ::
            if (prepare_input_info node now_ns steady_ns msg).has_header_stamp = true then
              [PubCall.set_explicit_subtime (resolve topic_name)
                (prepare_input_info node now_ns steady_ns msg)]
            else [])) ∧
      (prepare_input_info node now_ns steady_ns msg).sub_time =
        { nanoseconds := now_ns, clock_type := node.clock_type } ∧
      (prepare_input_info node now_ns steady_ns msg).sub_time_steady =
        { nanoseconds := steady_ns, clock_type := ClockType.RCL_STEADY_TIME } ∧
      ((prepare_input_info node now_ns steady_ns msg).has_header_stamp = true ↔
        ∃ s, msg.header_stamp = some s ∧ s ≠ { sec := 0, nanosec := 100 }) ∧
      (prepare_input_info node now_ns steady_ns msg).header_stamp =
        (match msg.header_stamp with
          | some s =>
            if s = { sec := 0, nanosec := 100 } then Time.zero
            else Time.of_sec_nsec s.sec s.nanosec node.clock_type
          | none => Time.zero) := by
  obtain ⟨tp0, h0, h1⟩ := inbound_heap_registered (resolve topic_name)
    (fun (_ : Msg) (_ : TildeNode) (u : Unit) => u) now_ns steady_ns msg (node, ()) hen hwf e he
  refine ⟨(main_topic_callback (resolve topic_name)
    (fun (_ : Msg) (_ : TildeNode) (u : Unit) => u) now_ns steady_ns msg (node, ())).1, ?_, ?_,
    prepare_sub_time _ _ _ _, prepare_sub_time_steady _ _ _ _,
    (prepare_header_fields _ _ _ _).1, (prepare_header_fields _ _ _ _).2⟩
  · intro callback a
    rfl
  · exact ⟨tp0, _, h0, h1, calls_offer _ _ _⟩

/-- C3 (last write wins): whatever happened on the node before, once the message has been
recorded (instrumentation enabled), the InputState for the topic held by every registered
publisher wrapper carries exactly the wall-clock and steady-clock readings taken for this
message. -/
theorem C3_last_write_wins {α : Type} (resolve : String → String) (node0 : TildeNode) (a0 : α)
    (hwf : node0.wf) (hen : node0.enable_tilde = true) (earlier : List (Op α))
    (topic_name : String) (callback : Msg → TildeNode → α → α) (now_ns steady_ns : Int)
    (msg : Msg) (e : String × Nat)
    (he : e ∈ (run resolve (node0, a0) earlier).1.tilde_pubs_) :
    ∃ tp info,
      (create_tilde_subscription resolve topic_name callback now_ns steady_ns msg
        (run resolve (node0, a0) earlier)).1.heap[e.2]? = some tp ∧
      tp.input_info (resolve topic_name) = some info ∧
      info.sub_time = { nanoseconds := now_ns, clock_type := node0.clock_type } ∧
      info.sub_time_steady =
        { nanoseconds := steady_ns, clock_type := ClockType.RCL_STEADY_TIME } := by
  have hwf1 := run_wf resolve earlier (node0, a0) hwf
  have hen1 : (run resolve (node0, a0) earlier).1.enable_tilde = true :=
    (run_enable_tilde resolve earlier (node0, a0)).trans hen
  obtain ⟨tp0, _, h1⟩ := inbound_heap_registered (resolve topic_name) callback now_ns steady_ns
    msg (run resolve (node0, a0) earlier) hen1 hwf1 e he
  refine ⟨_, _, h1, input_info_offer _ _ _, ?_, prepare_sub_time_steady _ _ _ _⟩
  rw [prepare_sub_time, run_clock_type]

/-- C4, as the code has it: the flag `has_header_stamp` of the record is set exactly when the
message carries an embedded timestamp other than 0 s / 100 ns, and the recorded `header_stamp`
is then that timestamp on the clock kind of the node; otherwise it stays the default time. -/
theorem C4_header_stamp_flag (node : TildeNode) (now_ns steady_ns : Int) (msg : Msg) :
    ((prepare_input_info node now_ns steady_ns msg).has_header_stamp = true ↔
        ∃ s, msg.header_stamp = some s ∧ s ≠ { sec := 0, nanosec := 100 }) ∧
    (prepare_input_info node now_ns steady_ns msg).header_stamp =
      (match msg.header_stamp with
        | some s =>
          if s = { sec := 0, nanosec := 100 } then Time.zero
          else Time.of_sec_nsec s.sec s.nanosec node.clock_type
        | none => Time.zero) := by
  cases hm : msg.header_stamp with
  | none => simp [prepare_input_info, get_timestamp_from_const, hm, InputInfo.fresh]
  | some s =>
    have key := of_sec_nsec_eq_sentinel s node.clock_type
    have hc : (Time.of_sec_nsec 0 100 node.clock_type).clock_type = node.clock_type := rfl
    by_cases hs : s = { sec := 0, nanosec := 100 }
    · have h2 := key.mpr hs
      simp only [prepare_input_info, get_timestamp_from_const, hm, hc, h2, ne_eq,
        not_true_eq_false, if_false, InputInfo.fresh]
      simp [hs]
    · have h2 : ¬ (Time.of_sec_nsec s.sec s.nanosec node.clock_type =
          Time.of_sec_nsec 0 100 node.clock_type) := fun h => hs (key.mp h)
      simp only [prepare_input_info, get_timestamp_from_const, hm, hc, h2, ne_eq,
        not_false_eq_true, if_true, InputInfo.fresh]
      simp [hs]

/-- C4, refuted as stated: a message whose embedded timestamp is 0 s / 100 ns carries a
timestamp, yet the record built for it has the flag `has_header_stamp` off. -/
theorem C4_sentinel_stamp_is_lost :
    sentinel_msg.header_stamp = some { sec := 0, nanosec := 100 } ∧
      ¬ ((prepare_input_info sample_node 5 6 sentinel_msg).has_header_stamp = true ↔
        sentinel_msg.header_stamp.isSome = true) := by
  decide

/-- C5: with the enable flag off, a sequence of inbound messages, on whatever topics and with
whatever user callbacks, leaves the node exactly as it was: no publisher wrapper receives a
call, so every wrapper in the heap, and with it every input table, is unchanged. -/
theorem C5_disabled_node_untouched {α : Type} (resolve : String → String) (node : TildeNode)
    (a : α) (hdis : node.enable_tilde = false) (ops : List (Op α))
    (hin : ∀ op ∈ ops, op.is_inbound = true) :
    (run resolve (node, a) ops).1 = node ∧
      ∀ i : Nat,
        ((run resolve (node, a) ops).1.heap[i]?).map (fun tp : TildePublisher => tp.calls) =
          (node.heap[i]?).map (fun tp : TildePublisher => tp.calls) := by
  have key : (run resolve (node, a) ops).1 = node := by
    refine run_invariant resolve (fun v => v.1 = node) (fun op => op.is_inbound = true) ?_
      ops (node, a) hin rfl
    intro v op hop hv
    cases op with
    | create_tilde_publisher topic_name qos => cases hop
    | inbound topic_name callback now_ns steady_ns msg =>
      have hd : v.1.enable_tilde = false := by rw [hv]; exact hdis
      show (main_topic_callback (resolve topic_name) callback now_ns steady_ns msg v).1 = node
      rw [inbound_disabled _ _ _ _ _ _ hd]
      exact hv
  refine ⟨key, ?_⟩
  intro i
  rw [key]

/-- An instance on the sample node: a message stamped 3 s / 0 ns arrives on `/in` with the
clock readings 5 and 6, and the wrapper on `/out` is the one looked at. -/
theorem C2_record_precedes_callback_witness :
    sample_node.enable_tilde = true ∧ sample_node.wf ∧
      ("/out/info/pub", 0) ∈ sample_node.tilde_pubs_ ∧
      ∃ node1 : TildeNode,
        (∀ (callback : Msg → TildeNode → Unit → Unit) (a : Unit),
          create_tilde_subscription resolve_absolute "/in" callback 5 6 stamped_msg
              (sample_node, a) =
            (node1, callback stamped_msg node1 a)) ∧
        (∃ tp0 tp1, sample_node.heap[0]? = some tp0 ∧ node1.heap[0]? = some tp1 ∧
          tp1.calls = tp0.calls ++
            (PubCall.set_implicit_input_info (resolve_absolute "/in")
                (prepare_input_info sample_node 5 6 stamped_msg) ::
              if (prepare_input_info sample_node 5 6 stamped_msg).has_header_stamp = true then
                [PubCall.set_explicit_subtime (resolve_absolute "/in")
                  (prepare_input_info sample_node 5 6 stamped_msg)]
              else [])) ∧
        (prepare_input_info sample_node 5 6 stamped_msg).sub_time =
          { nanoseconds := 5, clock_type := sample_node.clock_type } ∧
        (prepare_input_info sample_node 5 6 stamped_msg).sub_time_steady =
          { nanoseconds := 6, clock_type := ClockType.RCL_STEADY_TIME } ∧
        ((prepare_input_info sample_node 5 6 stamped_msg).has_header_stamp = true ↔
          ∃ s, stamped_msg.header_stamp = some s ∧ s ≠ { sec := 0, nanosec := 100 }) ∧
        (prepare_input_info sample_node 5 6 stamped_msg).header_stamp =
          (match stamped_msg.header_stamp with
            | some s =>
              if s = { sec := 0, nanosec := 100 } then Time.zero
              else Time.of_sec_nsec s.sec s.nanosec sample_node.clock_type
            | none => Time.zero) :=
  ⟨rfl, sample_node_wf, by decide,
    C2_record_precedes_callback resolve_absolute "/in" 5 6 stamped_msg sample_node rfl
      sample_node_wf ("/out/info/pub", 0) (by decide)⟩

/-- An instance on the sample node: a plain message on `/in` came first, then a stamped message
with the clock readings 5 and 6. -/
theorem C3_last_write_wins_witness :
    sample_node.wf ∧ sample_node.enable_tilde = true ∧
      ("/out/info/pub", 0) ∈
        (run resolve_absolute (sample_node, ())
          [Op.inbound "/in" idle_callback 1 2 plain_msg]).1.tilde_pubs_ ∧
      ∃ tp info,
        (create_tilde_subscription resolve_absolute "/in" idle_callback 5 6 stamped_msg
          (run resolve_absolute (sample_node, ())
            [Op.inbound "/in" idle_callback 1 2 plain_msg])).1.heap[0]? = some tp ∧
        tp.input_info (resolve_absolute "/in") = some info ∧
        info.sub_time = { nanoseconds := 5, clock_type := sample_node.clock_type } ∧
        info.sub_time_steady =
          { nanoseconds := 6, clock_type := ClockType.RCL_STEADY_TIME } :=
  ⟨sample_node_wf, rfl, by decide,
    C3_last_write_wins resolve_absolute sample_node () sample_node_wf rfl
      [Op.inbound "/in" idle_callback 1 2 plain_msg] "/in" idle_callback 5 6 stamped_msg
      ("/out/info/pub", 0) (by decide)⟩

/-- An instance on the sample node with instrumentation off: two messages, on `/in` and on
`/scan`. -/
theorem C5_disabled_node_untouched_witness :
    sample_node_disabled.enable_tilde = false ∧
      (∀ op ∈ [Op.inbound "/in" idle_callback 1 2 plain_msg,
          Op.inbound "/scan" idle_callback 5 6 stamped_msg], op.is_inbound = true) ∧
      (run resolve_absolute (sample_node_disabled, ())
          [Op.inbound "/in" idle_callback 1 2 plain_msg,
            Op.inbound "/scan" idle_callback 5 6 stamped_msg]).1 = sample_node_disabled ∧
      ∀ i : Nat,
        ((run resolve_absolute (sample_node_disabled, ())
            [Op.inbound "/in" idle_callback 1 2 plain_msg,
              Op.inbound "/scan" idle_callback 5 6 stamped_msg]).1.heap[i]?).map
            (fun tp : TildePublisher => tp.calls) =
          (sample_node_disabled.heap[i]?).map (fun tp : TildePublisher => tp.calls) :=
  ⟨rfl, by simp [Op.is_inbound],
    C5_disabled_node_untouched resolve_absolute sample_node_disabled () rfl
      [Op.inbound "/in" idle_callback 1 2 plain_msg,
        Op.inbound "/scan" idle_callback 5 6 stamped_msg] (by simp [Op.is_inbound])⟩

/-! ## The publisher wrapper registry -/

/-- C6, as the code has it: `create_tilde_publisher` creates the application publisher and the
companion publisher on the sibling topic whatever the enable flag is; the flag is only handed
on to the new wrapper. -/
theorem C6_companion_created_whatever_the_flag (resolve : String → String)
    (topic_name : String) (qos : QoS) (node : TildeNode) :
    (create_tilde_publisher resolve topic_name qos node).1.publishers =
        node.publishers ++
          [{ topic_name := topic_name, qos := qos },
            { topic_name := resolve topic_name ++ "/info/pub", qos := { depth := 1 } }] ∧
      ((create_tilde_publisher resolve topic_name qos node).1.heap[
          (create_tilde_publisher resolve topic_name qos node).2]?).map
          (fun tp => tp.enable) = some node.enable_tilde := by
  refine ⟨rfl, ?_⟩
  rw [create_ptr, create_heap_new]
  rfl

/-- C6, refuted as stated: on a node whose enable flag is off, `create_tilde_publisher` for
`/out` does create the companion publisher on `/out/info/pub`. -/
theorem C6_companion_created_when_disabled :
    (TildeNode.create "/talker" ClockType.RCL_ROS_TIME false).enable_tilde = false ∧
      (TildeNode.create "/talker" ClockType.RCL_ROS_TIME false).publishers = [] ∧
      (create_tilde_publisher resolve_absolute "/out" { depth := 7 }
          (TildeNode.create "/talker" ClockType.RCL_ROS_TIME false)).1.publishers =
        [{ topic_name := "/out", qos := { depth := 7 } },
          { topic_name := "/out/info/pub", qos := { depth := 1 } }] := by
  decide

/-- C7: the companion publisher is the last publisher `create_tilde_publisher` creates; it is
on the resolved name of the application topic followed by `/info/pub`, with queue depth 1, and
the new wrapper is registered under that name.  Two calls give the same companion topic name
exactly when the resolved names of their application topics are the same. -/
theorem C7_companion_topic_name (resolve : String → String) (topic_a topic_b : String)
    (qos_a qos_b : QoS) (node_a node_b : TildeNode) :
    (create_tilde_publisher resolve topic_a qos_a node_a).1.publishers.getLast? =
        some { topic_name := resolve topic_a ++ "/info/pub", qos := { depth := 1 } } ∧
      map_find (create_tilde_publisher resolve topic_a qos_a node_a).1.tilde_pubs_
          (resolve topic_a ++ "/info/pub") =
        some (create_tilde_publisher resolve topic_a qos_a node_a).2 ∧
      (((create_tilde_publisher resolve topic_a qos_a node_a).1.publishers.getLast?).map
            (fun p => p.topic_name) =
          ((create_tilde_publisher resolve topic_b qos_b node_b).1.publishers.getLast?).map
            (fun p => p.topic_name) ↔
        resolve topic_a = resolve topic_b) := by
  have hlast : ∀ (t : String) (q : QoS) (n : TildeNode),
      (create_tilde_publisher resolve t q n).1.publishers.getLast? =
        some { topic_name := resolve t ++ "/info/pub", qos := { depth := 1 } } := by
    intro t q n
    show (n.publishers ++ [_, _]).getLast? = _
    rw [List.getLast?_append]
    rfl
  refine ⟨hlast _ _ _, ?_, ?_⟩
  · rw [create_tilde_pubs, create_ptr]
    exact map_find_assign_eq _ _ _
  · rw [hlast, hlast]
    simp only [Option.map_some', Option.some.injEq]
    constructor
    · exact append_suffix_injective _ _ _
    · intro h
      rw [h]

theorem explicit_offers_offer (T topic : String) (p : InputInfo) (tp : TildePublisher) :
    (offer_input_info T p tp).explicit_offers topic =
      tp.explicit_offers topic ++
        (if p.has_header_stamp = true ∧ T = topic then [p] else []) := by
  unfold TildePublisher.explicit_offers
  rw [calls_offer, List.filterMap_append]
  by_cases h : p.has_header_stamp = true
  · by_cases h2 : T = topic
    · simp [h, h2, List.filterMap_cons]
    · simp [h, h2, List.filterMap_cons]
  · simp [h, List.filterMap_cons]

/-- C8, as the code has it: every wrapper keeps its own table.  A message that arrives with
instrumentation enabled is handed, as one and the same record, to every wrapper in the
registry, so right after it any two registered wrappers hold the same InputState for its
topic; a wrapper created afterwards has received no call and holds no InputState for any
topic. -/
theorem C8_registered_wrappers_agree {α : Type} (resolve : String → String)
    (topic_name : String) (callback : Msg → TildeNode → α → α) (now_ns steady_ns : Int)
    (msg : Msg) (node : TildeNode) (a : α) (hen : node.enable_tilde = true) (hwf : node.wf)
    (e1 e2 : String × Nat) (he1 : e1 ∈ node.tilde_pubs_) (he2 : e2 ∈ node.tilde_pubs_)
    (late_topic : String) (late_qos : QoS) :
    (∃ tp1 tp2,
      (create_tilde_subscription resolve topic_name callback now_ns steady_ns msg
        (node, a)).1.heap[e1.2]? = some tp1 ∧
      (create_tilde_subscription resolve topic_name callback now_ns steady_ns msg
        (node, a)).1.heap[e2.2]? = some tp2 ∧
      tp1.input_info (resolve topic_name) =
        some (prepare_input_info node now_ns steady_ns msg) ∧
      tp2.input_info (resolve topic_name) =
        some (prepare_input_info node now_ns steady_ns msg)) ∧
    ∃ tp,
      (create_tilde_publisher resolve late_topic late_qos
        (create_tilde_subscription resolve topic_name callback now_ns steady_ns msg
          (node, a)).1).1.heap[
        (create_tilde_publisher resolve late_topic late_qos
          (create_tilde_subscription resolve topic_name callback now_ns steady_ns msg
            (node, a)).1).2]? = some tp ∧
      tp.calls = [] ∧ ∀ topic : String, tp.input_info topic = none := by
  obtain ⟨_, _, h1⟩ := inbound_heap_registered (resolve topic_name) callback now_ns steady_ns
    msg (node, a) hen hwf e1 he1
  obtain ⟨_, _, h2⟩ := inbound_heap_registered (resolve topic_name) callback now_ns steady_ns
    msg (node, a) hen hwf e2 he2
  refine ⟨⟨_, _, h1, h2, input_info_offer _ _ _, input_info_offer _ _ _⟩, ?_⟩
  rw [create_ptr, create_heap_new]
  exact ⟨_, rfl, rfl, fun _ => rfl⟩

/-- An instance on the sample node with its two wrappers: a plain message arrives on `/in`, and
a third wrapper is created on `/out3` afterwards. -/
theorem C8_registered_wrappers_agree_witness :
    sample_node_late_wrapper.enable_tilde = true ∧ sample_node_late_wrapper.wf ∧
      ("/out/info/pub", 0) ∈ sample_node_late_wrapper.tilde_pubs_ ∧
      ("/out2/info/pub", 1) ∈ sample_node_late_wrapper.tilde_pubs_ ∧
      (∃ tp1 tp2,
        (create_tilde_subscription resolve_absolute "/in" idle_callback 8 9 plain_msg
          (sample_node_late_wrapper, ())).1.heap[0]? = some tp1 ∧
        (create_tilde_subscription resolve_absolute "/in" idle_callback 8 9 plain_msg
          (sample_node_late_wrapper, ())).1.heap[1]? = some tp2 ∧
        tp1.input_info (resolve_absolute "/in") =
          some (prepare_input_info sample_node_late_wrapper 8 9 plain_msg) ∧
        tp2.input_info (resolve_absolute "/in") =
          some (prepare_input_info sample_node_late_wrapper 8 9 plain_msg)) ∧
      ∃ tp,
        (create_tilde_publisher resolve_absolute "/out3" { depth := 7 }
          (create_tilde_subscription resolve_absolute "/in" idle_callback 8 9 plain_msg
            (sample_node_late_wrapper, ())).1).1.heap[
          (create_tilde_publisher resolve_absolute "/out3" { depth := 7 }
            (create_tilde_subscription resolve_absolute "/in" idle_callback 8 9 plain_msg
              (sample_node_late_wrapper, ())).1).2]? = some tp ∧
        tp.calls = [] ∧ ∀ topic : String, tp.input_info topic = none :=
  ⟨rfl, create_wf _ _ _ _ (inbound_wf _ _ _ _ _ _ sample_node_wf), by decide, by decide,
    C8_registered_wrappers_agree resolve_absolute "/in" idle_callback 8 9 plain_msg
      sample_node_late_wrapper () rfl
      (create_wf _ _ _ _ (inbound_wf _ _ _ _ _ _ sample_node_wf))
      ("/out/info/pub", 0) ("/out2/info/pub", 1) (by decide) (by decide) "/out3"
      { depth := 7 }⟩

/-- C8, refuted as stated: a node with instrumentation enabled has a wrapper on `/out`, a
message arrives on `/in`, and a wrapper on `/out2` is created afterwards.  Both wrappers are
in the registry; the first one has been handed the record for `/in` and holds it as its
InputState, the second one has received no call and holds no InputState for `/in`. -/
theorem C8_late_wrapper_sees_nothing :
    sample_node_late_wrapper.tilde_pubs_ = [("/out2/info/pub", 1), ("/out/info/pub", 0)] ∧
      (sample_node_late_wrapper.heap[0]?).map (fun tp => tp.calls) =
        some
          [PubCall.set_implicit_input_info "/in"
              (prepare_input_info sample_node 5 6 stamped_msg),
            PubCall.set_explicit_subtime "/in"
              (prepare_input_info sample_node 5 6 stamped_msg)] ∧
      (sample_node_late_wrapper.heap[1]?).map (fun tp => tp.calls) = some [] ∧
      (sample_node_late_wrapper.heap[0]?).bind (fun tp => tp.input_info "/in") =
        some (prepare_input_info sample_node 5 6 stamped_msg) ∧
      (sample_node_late_wrapper.heap[1]?).bind (fun tp => tp.input_info "/in") = none := by
  decide

/-- C9: with instrumentation enabled, every registered publisher wrapper is offered the record
of an inbound message for implicit correlation, and it is offered the record for explicit
correlation exactly when the flag `has_header_stamp` of the record is on.  A message without
an embedded timestamp gives a record with the flag off, so it adds only the implicit call and
leaves the explicit offers on every topic as they were. -/
theorem C9_implicit_always_explicit_iff_flag {α : Type} (resolve : String → String)
    (topic_name : String) (callback : Msg → TildeNode → α → α) (now_ns steady_ns : Int)
    (msg : Msg) (node : TildeNode) (a : α) (hen : node.enable_tilde = true) (hwf : node.wf)
    (e : String × Nat) (he : e ∈ node.tilde_pubs_) :
    ∃ tp0 tp1, node.heap[e.2]? = some tp0 ∧
      (create_tilde_subscription resolve topic_name callback now_ns steady_ns msg
        (node, a)).1.heap[e.2]? = some tp1 ∧
      tp1.calls = tp0.calls ++
        (PubCall.set_implicit_input_info (resolve topic_name)
            (prepare_input_info node now_ns steady_ns msg) ::
          if (prepare_input_info node now_ns steady_ns msg).has_header_stamp = true then
            [PubCall.set_explicit_subtime (resolve topic_name)
              (prepare_input_info node now_ns steady_ns msg)]
          else []) ∧
      (tp1.explicit_offers (resolve topic_name) ≠ tp0.explicit_offers (resolve topic_name) ↔
        (prepare_input_info node now_ns steady_ns msg).has_header_stamp = true) ∧
      (msg.header_stamp = none →
        (prepare_input_info node now_ns steady_ns msg).has_header_stamp = false ∧
        tp1.calls = tp0.calls ++
          [PubCall.set_implicit_input_info (resolve topic_name)
            (prepare_input_info node now_ns steady_ns msg)] ∧
        ∀ topic : String, tp1.explicit_offers topic = tp0.explicit_offers topic) := by
  obtain ⟨tp0, h0, h1⟩ := inbound_heap_registered (resolve topic_name) callback now_ns
    steady_ns msg (node, a) hen hwf e he
  refine ⟨tp0, _, h0, h1, calls_offer _ _ _, ?_, ?_⟩
  · rw [explicit_offers_offer]
    by_cases hf : (prepare_input_info node now_ns steady_ns msg).has_header_stamp = true
    · simp [hf]
    · simp [hf]
  · intro hnone
    have hf := prepare_no_header node now_ns steady_ns msg hnone
    refine ⟨hf, ?_, ?_⟩
    · rw [calls_offer]
      simp [hf]
    · intro topic
      rw [explicit_offers_offer]
      simp [hf]

/-- An instance on the sample node: a message without a header arrives on `/in`. -/
theorem C9_implicit_always_explicit_iff_flag_witness :
    sample_node.enable_tilde = true ∧ sample_node.wf ∧
      ("/out/info/pub", 0) ∈ sample_node.tilde_pubs_ ∧
      plain_msg.header_stamp = none ∧
      ∃ tp0 tp1, sample_node.heap[0]? = some tp0 ∧
        (create_tilde_subscription resolve_absolute "/in" idle_callback 5 6 plain_msg
          (sample_node, ())).1.heap[0]? = some tp1 ∧
        tp1.calls = tp0.calls ++
          (PubCall.set_implicit_input_info (resolve_absolute "/in")
              (prepare_input_info sample_node 5 6 plain_msg) ::
            if (prepare_input_info sample_node 5 6 plain_msg).has_header_stamp = true then
              [PubCall.set_explicit_subtime (resolve_absolute "/in")
                (prepare_input_info sample_node 5 6 plain_msg)]
            else []) ∧
        (tp1.explicit_offers (resolve_absolute "/in") ≠
            tp0.explicit_offers (resolve_absolute "/in") ↔
          (prepare_input_info sample_node 5 6 plain_msg).has_header_stamp = true) ∧
        (plain_msg.header_stamp = none →
          (prepare_input_info sample_node 5 6 plain_msg).has_header_stamp = false ∧
          tp1.calls = tp0.calls ++
            [PubCall.set_implicit_input_info (resolve_absolute "/in")
              (prepare_input_info sample_node 5 6 plain_msg)] ∧
          ∀ topic : String, tp1.explicit_offers topic = tp0.explicit_offers topic) :=
  ⟨rfl, sample_node_wf, by decide, rfl,
    C9_implicit_always_explicit_iff_flag resolve_absolute "/in" idle_callback 5 6 plain_msg
      sample_node () rfl sample_node_wf ("/out/info/pub", 0) (by decide)⟩

/-- C10: the registry holds one wrapper per sibling topic name, the latest one.  Take any two
calls of `create_tilde_publisher` whose topics resolve to the same name, with any events in
between, followed by any events that do not create a wrapper for that topic again.  Then the
keys of the registry are pairwise distinct, the registry maps the sibling topic name to the
wrapper returned by the second call, no pair of the registry points to the wrapper returned by
the first call any more, and that wrapper is exactly as it was when the second call was made:
it has received nothing from the inbound messages that came later. -/
theorem C10_registry_keeps_latest_wrapper {α : Type} (resolve : String → String)
    (node0 : TildeNode) (a0 : α) (hwf : node0.wf) (topic1 topic2 : String) (qos1 qos2 : QoS)
    (between later : List (Op α)) (hsame : resolve topic2 = resolve topic1)
    (hlater : ∀ op ∈ later, op.creates resolve (resolve topic1 ++ "/info/pub") = false) :
    ((run resolve (node0, a0)
        (Op.create_tilde_publisher topic1 qos1 ::
          (between ++ Op.create_tilde_publisher topic2 qos2 :: later))).1.tilde_pubs_.map
        Prod.fst).Nodup ∧
      map_find
          (run resolve (node0, a0)
            (Op.create_tilde_publisher topic1 qos1 ::
              (between ++ Op.create_tilde_publisher topic2 qos2 :: later))).1.tilde_pubs_
          (resolve topic1 ++ "/info/pub") =
        some (create_tilde_publisher resolve topic2 qos2
          (run resolve (node0, a0) (Op.create_tilde_publisher topic1 qos1 :: between)).1).2 ∧
      (create_tilde_publisher resolve topic1 qos1 node0).2 ≠
        (create_tilde_publisher resolve topic2 qos2
          (run resolve (node0, a0) (Op.create_tilde_publisher topic1 qos1 :: between)).1).2 ∧
      (∀ e ∈ (run resolve (node0, a0)
            (Op.create_tilde_publisher topic1 qos1 ::
              (between ++ Op.create_tilde_publisher topic2 qos2 :: later))).1.tilde_pubs_,
          e.2 ≠ (create_tilde_publisher resolve topic1 qos1 node0).2) ∧
      (run resolve (node0, a0)
          (Op.create_tilde_publisher topic1 qos1 ::
            (between ++ Op.create_tilde_publisher topic2 qos2 :: later))).1.heap[
          (create_tilde_publisher resolve topic1 qos1 node0).2]? =
        (run resolve (node0, a0) (Op.create_tilde_publisher topic1 qos1 :: between)).1.heap[
          (create_tilde_publisher resolve topic1 qos1 node0).2]? := by
  -- the state after the first call
  have hwf1 : (create_tilde_publisher resolve topic1 qos1 node0).1.wf :=
    create_wf resolve topic1 qos1 node0 hwf
  have hlt1 : node0.heap.length <
      (create_tilde_publisher resolve topic1 qos1 node0).1.heap.length := by
    rw [create_heap]
    simp
  have hnew1 := create_heap_new resolve topic1 qos1 node0
  -- the state before the second call
  have hpre : run resolve (node0, a0) (Op.create_tilde_publisher topic1 qos1 :: between) =
      run resolve ((create_tilde_publisher resolve topic1 qos1 node0).1, a0) between := rfl
  have hfin : run resolve (node0, a0)
      (Op.create_tilde_publisher topic1 qos1 ::
        (between ++ Op.create_tilde_publisher topic2 qos2 :: later)) =
      run resolve
        ((create_tilde_publisher resolve topic2 qos2
          (run resolve ((create_tilde_publisher resolve topic1 qos1 node0).1, a0) between).1).1,
          (run resolve ((create_tilde_publisher resolve topic1 qos1 node0).1, a0) between).2)
        later := by
    rw [run_cons, run_append, run_cons]
    rfl
  rw [hfin, hpre]
  generalize hw2 : run resolve ((create_tilde_publisher resolve topic1 qos1 node0).1, a0)
    between = w2
  have hwf2 : w2.1.wf := by
    rw [← hw2]
    exact run_wf resolve between _ hwf1
  obtain ⟨hlt2, hinfo2⟩ := run_heap_info_pub resolve between
    ((create_tilde_publisher resolve topic1 qos1 node0).1, a0) node0.heap.length hlt1
  rw [hw2] at hlt2 hinfo2
  rw [hnew1] at hinfo2
  simp only [Option.map_some'] at hinfo2
  have hne : node0.heap.length ≠ w2.1.heap.length := Nat.ne_of_lt hlt2
  -- the state after the second call
  have hwf3 : (create_tilde_publisher resolve topic2 qos2 w2.1).1.wf :=
    create_wf resolve topic2 qos2 w2.1 hwf2
  have hlt3 : node0.heap.length <
      (create_tilde_publisher resolve topic2 qos2 w2.1).1.heap.length := by
    rw [create_heap]
    simp only [List.length_append, List.length_singleton]
    exact Nat.lt_succ_of_lt hlt2
  have hun3 : ∀ e ∈ (create_tilde_publisher resolve topic2 qos2 w2.1).1.tilde_pubs_,
      e.2 ≠ node0.heap.length := by
    intro e he
    rw [create_tilde_pubs, mem_map_assign] at he
    rcases he with rfl | ⟨hin, hkey⟩
    · exact fun h => hne h.symm
    · intro h
      have h5 := hwf2.2 e hin
      rw [h] at h5
      have h6 := congrArg (Option.map (fun p : Publisher => p.topic_name)) hinfo2
      simp only [Option.map_map, Option.map_some'] at h6
      have h7 : some e.1 = some (resolve topic1 ++ info_suffix) := h5.symm.trans h6
      exact hkey ((Option.some.inj h7).trans (by rw [hsame]))
  have hfind3 : map_find (create_tilde_publisher resolve topic2 qos2 w2.1).1.tilde_pubs_
      (resolve topic1 ++ "/info/pub") = some w2.1.heap.length := by
    rw [create_tilde_pubs, hsame]
    exact map_find_assign_eq _ _ _
  obtain ⟨hun4, hheap4⟩ := run_unregistered resolve later
    ((create_tilde_publisher resolve topic2 qos2 w2.1).1, w2.2) node0.heap.length hlt3 hun3
  refine ⟨(run_wf resolve later _ hwf3).1, ?_, ?_, ?_, ?_⟩
  · rw [create_ptr]
    exact run_map_find resolve _ _ later _ hlater hfind3
  · rw [create_ptr, create_ptr]
    exact hne
  · rw [create_ptr]
    exact hun4
  · rw [create_ptr, hheap4]
    exact create_heap_old resolve topic2 qos2 w2.1 node0.heap.length hlt2

/-- An instance on a fresh node: a wrapper on `/out`, a message on `/in`, a second wrapper on
`/out`, and another message on `/in`. -/
theorem C10_registry_keeps_latest_wrapper_witness :
    (TildeNode.create "/talker" ClockType.RCL_ROS_TIME true).wf ∧
      resolve_absolute "/out" = resolve_absolute "/out" ∧
      (∀ op ∈ [Op.inbound "/in" idle_callback 5 6 stamped_msg],
        op.creates resolve_absolute (resolve_absolute "/out" ++ "/info/pub") = false) ∧
      ((run resolve_absolute (TildeNode.create "/talker" ClockType.RCL_ROS_TIME true, ())
          (Op.create_tilde_publisher "/out" { depth := 7 } ::
            ([Op.inbound "/in" idle_callback 1 2 plain_msg] ++
              Op.create_tilde_publisher "/out" { depth := 3 } ::
                [Op.inbound "/in" idle_callback 5 6 stamped_msg]))).1.tilde_pubs_.map
          Prod.fst).Nodup ∧
      map_find
          (run resolve_absolute (TildeNode.create "/talker" ClockType.RCL_ROS_TIME true, ())
            (Op.create_tilde_publisher "/out" { depth := 7 } ::
              ([Op.inbound "/in" idle_callback 1 2 plain_msg] ++
                Op.create_tilde_publisher "/out" { depth := 3 } ::
                  [Op.inbound "/in" idle_callback 5 6 stamped_msg]))).1.tilde_pubs_
          (resolve_absolute "/out" ++ "/info/pub") =
        some (create_tilde_publisher resolve_absolute "/out" { depth := 3 }
          (run resolve_absolute (TildeNode.create "/talker" ClockType.RCL_ROS_TIME true, ())
            (Op.create_tilde_publisher "/out" { depth := 7 } ::
              [Op.inbound "/in" idle_callback 1 2 plain_msg])).1).2 ∧
      (create_tilde_publisher resolve_absolute "/out" { depth := 7 }
          (TildeNode.create "/talker" ClockType.RCL_ROS_TIME true)).2 ≠
        (create_tilde_publisher resolve_absolute "/out" { depth := 3 }
          (run resolve_absolute (TildeNode.create "/talker" ClockType.RCL_ROS_TIME true, ())
            (Op.create_tilde_publisher "/out" { depth := 7 } ::
              [Op.inbound "/in" idle_callback 1 2 plain_msg])).1).2 ∧
      (∀ e ∈ (run resolve_absolute
            (TildeNode.create "/talker" ClockType.RCL_ROS_TIME true, ())
            (Op.create_tilde_publisher "/out" { depth := 7 } ::
              ([Op.inbound "/in" idle_callback 1 2 plain_msg] ++
                Op.create_tilde_publisher "/out" { depth := 3 } ::
                  [Op.inbound "/in" idle_callback 5 6 stamped_msg]))).1.tilde_pubs_,
          e.2 ≠ (create_tilde_publisher resolve_absolute "/out" { depth := 7 }
            (TildeNode.create "/talker" ClockType.RCL_ROS_TIME true)).2) ∧
      (run resolve_absolute (TildeNode.create "/talker" ClockType.RCL_ROS_TIME true, ())
          (Op.create_tilde_publisher "/out" { depth := 7 } ::
            ([Op.inbound "/in" idle_callback 1 2 plain_msg] ++
              Op.create_tilde_publisher "/out" { depth := 3 } ::
                [Op.inbound "/in" idle_callback 5 6 stamped_msg]))).1.heap[
          (create_tilde_publisher resolve_absolute "/out" { depth := 7 }
            (TildeNode.create "/talker" ClockType.RCL_ROS_TIME true)).2]? =
        (run resolve_absolute (TildeNode.create "/talker" ClockType.RCL_ROS_TIME true, ())
          (Op.create_tilde_publisher "/out" { depth := 7 } ::
            [Op.inbound "/in" idle_callback 1 2 plain_msg])).1.heap[
          (create_tilde_publisher resolve_absolute "/out" { depth := 7 }
            (TildeNode.create "/talker" ClockType.RCL_ROS_TIME true)).2]? :=
  ⟨wf_of_fresh_node _ _ _, rfl, by simp [Op.creates],
    C10_registry_keeps_latest_wrapper resolve_absolute
      (TildeNode.create "/talker" ClockType.RCL_ROS_TIME true) () (wf_of_fresh_node _ _ _)
      "/out" "/out" { depth := 7 } { depth := 3 }
      [Op.inbound "/in" idle_callback 1 2 plain_msg]
      [Op.inbound "/in" idle_callback 5 6 stamped_msg] rfl (by simp [Op.creates])⟩

end tilde
